import Mathlib

/-!
Verification of the MMLU few-shot evaluation pipeline repository.

The development shallowly embeds the two source files:

* `guidance_programs/zero_shot.py` — the guidance program that renders a
  multiple-choice prompt and performs constrained generation; and
* `azureml/pipelines/submit_mmlu_fewshot.py` — the pipeline assembler that
  wires the fetch / split / convert / generate / score stages into a DAG
  and submits it.

Python decimal rendering (`str(n)`) and parsing (`int(s)`) are embedded as
executable Lean functions `pyStr` and `pyIntNat`, with a proved round-trip.
External collaborators (the constrained-generation primitive, the AzureML
client, the component implementations) are modelled through their
contracts, as given in the specification.
-/

/-! ## Embedding of Python decimal `str` and `int` (non-negative case) -/

/-- The character for a single decimal digit value (valid for `d < 10`);
embeds the digit characters produced by Python `str`. -/
def digitChar (d : Nat) : Char := Char.ofNat (48 + d)

/-- Decimal digits of `n`, least significant first; `fuel` bounds the
recursion (callers pass `fuel ≥ n`). -/
def decDigitsRevAux : Nat → Nat → List Char
  | 0, _ => []
  | fuel + 1, n => if n = 0 then [] else digitChar (n % 10) :: decDigitsRevAux fuel (n / 10)

/-- Embedding of Python `str` on a non-negative integer: its decimal
rendering, most significant digit first. -/
def pyStr (n : Nat) : String :=
  if n = 0 then "0" else String.mk (decDigitsRevAux n n).reverse

/-- Numeric value of a digit character. -/
def pyCharDigit (c : Char) : Nat := c.toNat - 48

/-- Embedding of Python `int` applied to a string of decimal digits:
parses the string, failing (Python `ValueError`) when the string is empty
or holds a non-digit. -/
def pyIntNat (s : String) : Option Nat :=
  if s.data.isEmpty || !s.data.all Char.isDigit then none
  else some (s.data.foldl (fun a c => a * 10 + pyCharDigit c) 0)

theorem digitChar_isDigit {d : Nat} (h : d < 10) : (digitChar d).isDigit = true := by
  interval_cases d <;> decide

theorem pyCharDigit_digitChar {d : Nat} (h : d < 10) : pyCharDigit (digitChar d) = d := by
  interval_cases d <;> decide

theorem decDigitsRevAux_zero (fuel : Nat) : decDigitsRevAux fuel 0 = [] := by
  cases fuel <;> simp [decDigitsRevAux]

theorem decDigitsRevAux_all_digits :
    ∀ (fuel n : Nat), ∀ c ∈ decDigitsRevAux fuel n, c.isDigit = true := by
  intro fuel
  induction fuel with
  | zero => intro n c hc; simp [decDigitsRevAux] at hc
  | succ fuel ih =>
    intro n c hc
    by_cases hn : n = 0
    · simp [decDigitsRevAux, hn] at hc
    · simp only [decDigitsRevAux, if_neg hn, List.mem_cons] at hc
      rcases hc with h | h
      · subst h; exact digitChar_isDigit (Nat.mod_lt _ (by omega))
      · exact ih _ c h

theorem decDigitsRevAux_ne_nil {fuel n : Nat} (hn : n ≠ 0) (hf : fuel ≠ 0) :
    decDigitsRevAux fuel n ≠ [] := by
  cases fuel with
  | zero => exact absurd rfl hf
  | succ fuel => simp [decDigitsRevAux, hn]

theorem foldl_decDigitsRevAux (fuel : Nat) :
    ∀ (n a : Nat), n ≤ fuel → n ≠ 0 →
      List.foldl (fun a c => a * 10 + pyCharDigit c) a (decDigitsRevAux fuel n).reverse =
        a * 10 ^ (decDigitsRevAux fuel n).length + n := by
  induction fuel with
  | zero => intro n a hle hne; omega
  | succ fuel ih =>
    intro n a hle hne
    have hmod : n % 10 < 10 := Nat.mod_lt _ (by omega)
    by_cases hq : n / 10 = 0
    · have hlt : n < 10 := by
        have := Nat.div_add_mod n 10
        omega
      simp [decDigitsRevAux, hne, hq, decDigitsRevAux_zero,
        Nat.mod_eq_of_lt hlt, pyCharDigit_digitChar hlt]
    · have hdivlt : n / 10 < n := Nat.div_lt_self (by omega) (by omega)
      have hdivle : n / 10 ≤ fuel := by omega
      have hrec := ih (n / 10) a hdivle hq
      simp only [decDigitsRevAux, if_neg hne, List.reverse_cons, List.foldl_append,
        List.foldl_cons, List.foldl_nil, List.length_cons, hrec,
        pyCharDigit_digitChar hmod]
      have := Nat.div_add_mod n 10
      ring_nf
      omega

theorem pyIntNat_pyStr (n : Nat) : pyIntNat (pyStr n) = some n := by
  by_cases hn : n = 0
  · subst hn; decide
  · have hne := @decDigitsRevAux_ne_nil n n hn (by omega)
    have hdig := decDigitsRevAux_all_digits n n
    have hfold := foldl_decDigitsRevAux n n 0 (Nat.le_refl n) hn
    simp only [pyStr, if_neg hn, pyIntNat]
    have hempty : ((decDigitsRevAux n n).reverse.isEmpty = false) := by
      simp [List.isEmpty_iff, hne]
    have hall : (decDigitsRevAux n n).reverse.all Char.isDigit = true := by
      simp only [List.all_eq_true, List.mem_reverse]
      exact hdig
    simp [hempty, hall, hfold]

theorem pyStr_injective : Function.Injective pyStr := by
  intro a b hab
  have ha := pyIntNat_pyStr a
  have hb := pyIntNat_pyStr b
  rw [hab, hb] at ha
  exact (Option.some_injective _ ha).symm

/-! ## Embedding of `guidance_programs/zero_shot.py` -/

/-- A worked example from the few-shot pool, as consumed by
`zero_shot_multiple_choice` (fields `question`, `choices`,
`correct_answer`). -/
structure Exemplar where
  question : String
  choices : List String
  correct_answer : Nat
deriving DecidableEq

/-- The per-record input of `guidance_generation`: a question and its
candidate choices. -/
structure MCInput where
  question : String
  choices : List String
deriving DecidableEq

/-- Python truthiness of the optional exemplar list `common`: `None` and
the empty list are falsy. -/
def pyTruthy : Option (List Exemplar) → Bool
  | none => false
  | some l => !l.isEmpty

/-- The exemplar list carried by `common` (empty when `None`). -/
def commonList : Option (List Exemplar) → List Exemplar
  | none => []
  | some l => l

/-- The fixed instruction preamble added inside the system block. -/
def instructionPreamble : String :=
  "You are a student taking a multiple choice test.\nYou will be shown a question, followed by numbered multiple choice answers.\nResponse with the number corresponding to the best answer."

/-- The text appended for one enumerated exemplar: header line, question,
enumerated choices, then the correct-answer line (appended after the
choice loop). -/
def exampleBlock (i : Nat) (ex : Exemplar) : String :=
  (ex.choices.enum.foldl (fun acc p => acc ++ (pyStr p.1 ++ " : " ++ p.2 ++ "\n"))
      ("Example " ++ pyStr i ++ "\n" ++ ex.question ++ "\n"))
    ++ ("Correct Answer: " ++ pyStr ex.correct_answer)

/-- The system-role text built by `zero_shot_multiple_choice`: the
preamble, then — only when `common` is truthy — the examples header and
every exemplar block in pool order. -/
def systemText (common : Option (List Exemplar)) : String :=
  instructionPreamble ++
    (if pyTruthy common then
      (commonList common).enum.foldl (fun acc p => acc ++ exampleBlock p.1 p.2)
        "Here are some examples to help you:\n\n"
    else "")

/-- The user-role text built by `zero_shot_multiple_choice`: the target
question, then per enumerated choice the choice line followed immediately
by the answer cue (the cue sits inside the loop in the source). -/
def userText (question : String) (choices : List String) : String :=
  choices.enum.foldl
    (fun acc p => acc ++ (pyStr p.1 ++ " : " ++ p.2 ++ "\n") ++ "Correct Answer: ")
    (question ++ "\n")

/-- Chat-turn roles of the model-invocation collaborator. -/
inductive Role
  | systemRole
  | userRole
  | assistantRole
deriving DecidableEq

/-- The prompt assembled by `zero_shot_multiple_choice` before the
constrained-generation call: the system block and the user block. -/
def zero_shot_prompt (question : String) (choices : List String)
    (common : Option (List Exemplar)) : List (Role × String) :=
  [(Role.systemRole, systemText common), (Role.userRole, userText question choices)]

/-- The allowed-token set passed to the `select` primitive:
`[str(i) for i in range(len(choices))]`. -/
def selectTokens (choices : List String) : List String :=
  (List.range choices.length).map pyStr

/-- The constrained-generation primitive of the model collaborator: it
returns one member of the allowed-token list (which one depends on the
model, abstracted as the index `modelPick`), and can return nothing when
the allowed set is empty. -/
def selectToken (options : List String) (modelPick : Nat) : Option String :=
  options[modelPick % options.length]?

/-- Failure modes of one `guidance_generation` call. -/
inductive GenError
  | noValidToken
  | valueError
deriving DecidableEq

/-- The key under which `guidance_generation` records the selected
choice. -/
def zeroshot_choice_key : String := "zeroshot_choice"

/-- Embedding of `zero_shot_multiple_choice`: assemble the system and user
blocks, then call the constrained `select` primitive over the digit tokens
of the choice indices; returns the final chat state — the prompt together
with the captured `string_choice` token. -/
def zero_shot_multiple_choice (question : String) (choices : List String)
    (common : Option (List Exemplar)) (modelPick : Nat) :
    List (Role × String) × Option String :=
  (zero_shot_prompt question choices common,
   selectToken (selectTokens choices) modelPick)

/-- Embedding of `guidance_generation`: run `zero_shot_multiple_choice` on
the record fields, convert the captured token with `int`, and return the
one-entry result mapping. -/
def guidance_generation (input : MCInput) (common : Option (List Exemplar))
    (modelPick : Nat) : Except GenError (List (String × Nat)) :=
  match (zero_shot_multiple_choice input.question input.choices common modelPick).2 with
  | none => .error .noValidToken
  | some tok =>
    match pyIntNat tok with
    | none => .error .valueError
    | some v => .ok [(zeroshot_choice_key, v)]

/-! ## Embedding of `azureml/pipelines/submit_mmlu_fewshot.py` -/

/-- Azure OpenAI sub-configuration, as used by the assembler
(`run_config.aoai_config.endpoint` / `.model` / `.compute_target`). -/
structure AOAIConfig where
  endpoint : String
  model : String
  compute_target : String
deriving DecidableEq

/-- Pipeline naming and tagging sub-configuration, as used by the
assembler (`run_config.pipeline.base_experiment_name` /
`.default_compute_target` / `.tags`). -/
structure PipelineSettings where
  base_experiment_name : String
  default_compute_target : String
  tags : List (String × String)
deriving DecidableEq

/-- Modelled from the spec: `FewShotConfig` is declared in `configs.py`,
which is not among the source files; its fields are the configuration
surface of section 6 of the spec, exactly as the assembler reads them
(source dataset identifier, split selectors, worker count, error budget,
model deployment and compute, naming and tagging parameters). -/
structure FewShotConfig where
  guidance_program : String
  mmlu_dataset : String
  mmlu_split : String
  fewshot_split : String
  guidance_workers : Nat
  max_errors : Nat
  aoai_config : AOAIConfig
  pipeline : PipelineSettings
  tags : List (String × String)
deriving DecidableEq

/-- Modelled from the spec: `AMLConfig` is declared in `configs.py`, which
is not among the source files; its fields are the workspace coordinates
`main` reads. -/
structure AMLConfig where
  subscription_id : String
  resource_group : String
  workspace_name : String
deriving DecidableEq

/-- The six nodes the assembler creates inside `basic_pipeline`. -/
inductive NodeId
  | fetch
  | extractSplit
  | extractFewshotSplit
  | convertJson
  | guidance
  | score
deriving DecidableEq

/-- A dataset-valued input of a node: either an external resource locator
or a named output port of another node. -/
inductive DataRef
  | externalFile (path : String)
  | nodeOutput (producer : NodeId) (port : String)
deriving DecidableEq

/-- The `jsonl_mmlu_fetch` component call. -/
structure FetchJob where
  mmlu_dataset : String
  name : String
deriving DecidableEq

/-- A `uri_folder_to_file` component call. -/
structure SplitJob where
  input_dataset : DataRef
  filename_pattern : String
  name : String
deriving DecidableEq

/-- The `jsonl_to_json` component call. -/
structure ConvertJob where
  input_dataset : DataRef
  name : String
deriving DecidableEq

/-- The `jsonl_guidance` component call. -/
structure GuidanceJob where
  guidance_program : DataRef
  guidance_workers : Nat
  max_errors : Nat
  input_dataset : DataRef
  common_dataset : DataRef
  azure_openai_endpoint : String
  azure_openai_deployed_model : String
  name : String
  compute : String
deriving DecidableEq

/-- The `jsonl_score_multiplechoice` component call. -/
structure ScoreJob where
  input_dataset : DataRef
  correct_key : String
  response_key : String
  name : String
deriving DecidableEq

/-- The graph built by `basic_pipeline`: its six component jobs. -/
structure PipelineGraph where
  mmlu_fetch_job : FetchJob
  get_split_job : SplitJob
  get_fewshot_split_job : SplitJob
  convert_common_to_json_job : ConvertJob
  fewshot_guidance_job : GuidanceJob
  score_job : ScoreJob
deriving DecidableEq

/-- The directory holding the guidance program files (`constants.py`). -/
def GUIDANCE_PROGRAMS_DIR : String := "guidance_programs/"

/-- Embedding of `basic_pipeline`: construct the six jobs, wiring each
dataset input to the producing output port exactly as the source does. -/
def basic_pipeline (run_config : FewShotConfig) : PipelineGraph where
  mmlu_fetch_job :=
    { mmlu_dataset := run_config.mmlu_dataset
      name := "fetch_mmlu_" ++ run_config.mmlu_dataset }
  get_split_job :=
    { input_dataset := .nodeOutput .fetch "output_dataset"
      filename_pattern := run_config.mmlu_split ++ ".jsonl"
      name := "extract_split_" ++ run_config.mmlu_split }
  get_fewshot_split_job :=
    { input_dataset := .nodeOutput .fetch "output_dataset"
      filename_pattern := run_config.fewshot_split ++ ".jsonl"
      name := "extract_split_" ++ run_config.fewshot_split }
  convert_common_to_json_job :=
    { input_dataset := .nodeOutput .extractFewshotSplit "output_dataset"
      name := "convert_fewshot_to_json" }
  fewshot_guidance_job :=
    { guidance_program := .externalFile (GUIDANCE_PROGRAMS_DIR ++ run_config.guidance_program)
      guidance_workers := run_config.guidance_workers
      max_errors := run_config.max_errors
      input_dataset := .nodeOutput .extractSplit "output_dataset"
      common_dataset := .nodeOutput .convertJson "output_dataset"
      azure_openai_endpoint := run_config.aoai_config.endpoint
      azure_openai_deployed_model := run_config.aoai_config.model
      name := "fewshot_guidance"
      compute := run_config.aoai_config.compute_target }
  score_job :=
    { input_dataset := .nodeOutput .guidance "output_dataset"
      correct_key := "correct_answer"
      response_key := "zero_or_few_shot_choice"
      name := "fewshot_score" }

/-- The dataset-valued inputs of each node of the assembled graph. -/
def nodeInputs (g : PipelineGraph) : NodeId → List DataRef
  | .fetch => []
  | .extractSplit => [g.get_split_job.input_dataset]
  | .extractFewshotSplit => [g.get_fewshot_split_job.input_dataset]
  | .convertJson => [g.convert_common_to_json_job.input_dataset]
  | .guidance => [g.fewshot_guidance_job.guidance_program,
                  g.fewshot_guidance_job.input_dataset,
                  g.fewshot_guidance_job.common_dataset]
  | .score => [g.score_job.input_dataset]

/-- The producing node of a dataset reference, when it is a node output. -/
def producerOf : DataRef → Option NodeId
  | .externalFile _ => none
  | .nodeOutput p _ => some p

/-- All six nodes, in declaration order. -/
def allNodes : List NodeId :=
  [.fetch, .extractSplit, .extractFewshotSplit, .convertJson, .guidance, .score]

/-- The dependency edges of the assembled graph: `(p, n)` when some input
of node `n` references an output of node `p`. -/
def depEdges (g : PipelineGraph) : List (NodeId × NodeId) :=
  (allNodes.map (fun n => ((nodeInputs g n).filterMap producerOf).map (fun p => (p, n)))).flatten

/-- Reachability along dependency edges (one or more steps). -/
inductive Reaches (es : List (NodeId × NodeId)) : NodeId → NodeId → Prop
  | single {a b : NodeId} : (a, b) ∈ es → Reaches es a b
  | step {a b c : NodeId} : (a, b) ∈ es → Reaches es b c → Reaches es a c

/-- A topological rank for the six nodes. -/
def nodeRank : NodeId → Nat
  | .fetch => 0
  | .extractSplit => 1
  | .extractFewshotSplit => 1
  | .convertJson => 2
  | .guidance => 3
  | .score => 4

/-- Embedding of Python `dict.update`: existing keys take the new value in
place, keys not yet present are appended in order. -/
def dictUpdate (d u : List (String × String)) : List (String × String) :=
  (d.map (fun p => match u.lookup p.1 with
    | some v => (p.1, v)
    | none => p))
  ++ u.filter (fun q => (d.lookup q.1).isNone)

/-- The pipeline entity handed to the workspace collaborator: the graph
plus the run metadata the assembler sets on it. The initial tag mapping of
the freshly built entity comes from the external `dsl.pipeline` collaborator
and is a parameter of `create_fewshot_pipeline`. -/
structure PipelineEntity where
  graph : PipelineGraph
  experiment_name : String
  display_name : Option String
  compute : String
  tags : List (String × String)
  component_version : String
deriving DecidableEq

/-- Embedding of `create_fewshot_pipeline`: build the graph, set the
experiment name, clear the display name, set the default compute, and —
only when `run_config.pipeline.tags` is truthy — update the entity tags
from `run_config.tags`. The components are versioned by `version_string`. -/
def create_fewshot_pipeline (run_config : FewShotConfig) (version_string : String)
    (initial_tags : List (String × String)) : PipelineEntity where
  graph := basic_pipeline run_config
  experiment_name := run_config.pipeline.base_experiment_name ++ "_" ++ run_config.mmlu_dataset
  display_name := none
  compute := run_config.pipeline.default_compute_target
  tags := if run_config.pipeline.tags.isEmpty then initial_tags
          else dictUpdate initial_tags run_config.tags
  component_version := version_string

/-- Embedding of `str(int(time.time()))` in `main`: the wall clock is
taken in milliseconds and truncated to whole seconds, so the version
string is the decimal rendering of `now_ms / 1000`. -/
def version_string_of (now_ms : Nat) : String := pyStr (now_ms / 1000)

/-- The run configuration dataclass declared in
`submit_mmlu_fewshot.py`: exactly the two required fields
`fewshot_config` and `azureml_config`. -/
structure PipelineConfig where
  fewshot_config : FewShotConfig
  azureml_config : AMLConfig
deriving DecidableEq

/-- A value held by a declared field of `PipelineConfig`. -/
inductive ConfigField
  | fewshotField (c : FewShotConfig)
  | azuremlField (c : AMLConfig)
deriving DecidableEq

/-- Attribute access on the structured configuration: hydra instantiates
`PipelineConfig` in struct mode, so only the two declared field names
resolve; any other attribute name raises. -/
def PipelineConfig.getAttr (c : PipelineConfig) : String → Option ConfigField
  | "fewshot_config" => some (.fewshotField c.fewshot_config)
  | "azureml_config" => some (.azuremlField c.azureml_config)
  | _ => none

/-- Errors surfaced by `main` before a pipeline is submitted. -/
inductive MainError
  | configAttributeError (field : String)
deriving DecidableEq

/-- The handle the workspace collaborator returns for a submitted job. -/
structure SubmittedJob where
  entity : PipelineEntity
deriving DecidableEq

/-- Embedding of `main` (named `main_fn` because `main` is reserved for a
program entry point in Lean): derive the version string from the wall
clock, connect the workspace client (external, no failure modelled), then
build the pipeline from `config.zeroshot_config` — an attribute access on
the structured configuration — and submit it. `initial_tags` stands for
the tag mapping of the freshly built entity. -/
def main_fn (config : PipelineConfig) (now_ms : Nat)
    (initial_tags : List (String × String)) : Except MainError SubmittedJob :=
  let version_string := version_string_of now_ms
  match config.getAttr "zeroshot_config" with
  | some (.fewshotField rc) =>
      .ok { entity := create_fewshot_pipeline rc version_string initial_tags }
  | _ => .error (.configAttributeError "zeroshot_config")

/-! ## The generation stage (external component), modelled from the spec -/

/-- Per-record outcome recorded by the generation stage. -/
inductive Outcome (α : Type)
  | success (v : α)
  | failureMarker
deriving DecidableEq

/-- The fatal error of the generation stage. -/
inductive StageError
  | errorBudgetExceeded
deriving DecidableEq

/-- Modelled from the spec: the implementation of the `jsonl_guidance`
component is not in the repository (the assembler only forwards
`max_errors` to it). Per the spec, the stage processes the per-record call
results in order, keeps a running count of failed calls, records a failure
marker and continues while the count stays below `max_errors`, and
terminates the whole stage with `ErrorBudgetExceeded` — emitting no
success result — the moment the count reaches `max_errors`. A call result
is `some v` for a successful generation and `none` for a failed one. -/
def runGuidanceStage (max_errors : Nat) :
    List (Option α) → Nat → Except StageError (List (Outcome α))
  | [], _ => .ok []
  | some v :: rest, errCount =>
      (runGuidanceStage max_errors rest errCount).map (fun out => .success v :: out)
  | none :: rest, errCount =>
      if max_errors ≤ errCount + 1 then .error .errorBudgetExceeded
      else (runGuidanceStage max_errors rest (errCount + 1)).map
        (fun out => .failureMarker :: out)

/-- The number of failed calls in a result list. -/
def countFailures (calls : List (Option α)) : Nat :=
  calls.countP (fun o => o.isNone)

/-- The outcome recorded for one call when the budget is never reached. -/
def markOutcome : Option α → Outcome α
  | some v => .success v
  | none => .failureMarker

/-! ## Helper lemmas -/

theorem join_foldl_shift : ∀ (l : List String) (a : String),
    l.foldl (· ++ ·) a = a ++ l.foldl (· ++ ·) "" := by
  intro l
  induction l with
  | nil => intro a; simp [List.foldl_nil]
  | cons x xs ih =>
    intro a
    simp only [List.foldl_cons]
    rw [ih (a ++ x), ih ("" ++ x)]
    simp [String.append_assoc]

theorem join_cons (a : String) (l : List String) :
    String.join (a :: l) = a ++ String.join l := by
  simp only [String.join, List.foldl_cons]
  rw [join_foldl_shift]
  simp

theorem foldl_append_eq_join {α : Type} (f : α → String) :
    ∀ (l : List α) (init : String),
      l.foldl (fun acc x => acc ++ f x) init = init ++ String.join (l.map f) := by
  intro l
  induction l with
  | nil => intro init; simp [String.join]
  | cons x xs ih =>
    intro init
    simp [List.foldl_cons, ih, join_cons, String.append_assoc]

theorem selectTokens_length (choices : List String) :
    (selectTokens choices).length = choices.length := by
  simp [selectTokens]

theorem selectToken_selectTokens (choices : List String) (pick : Nat) :
    selectToken (selectTokens choices) pick =
      if choices.length = 0 then none
      else some (pyStr (pick % choices.length)) := by
  by_cases h : choices.length = 0
  · simp [selectToken, selectTokens, h, List.length_map, List.length_range,
      List.range_zero]
  · have hlt : pick % choices.length < choices.length := Nat.mod_lt _ (by omega)
    simp [selectToken, selectTokens, h, List.length_map, List.length_range,
      List.getElem?_map, List.getElem?_range, hlt]

theorem guidance_generation_eq (input : MCInput) (common : Option (List Exemplar))
    (modelPick : Nat) :
    guidance_generation input common modelPick =
      if input.choices.length = 0 then .error .noValidToken
      else .ok [(zeroshot_choice_key, modelPick % input.choices.length)] := by
  unfold guidance_generation zero_shot_multiple_choice
  simp only [selectToken_selectTokens]
  by_cases h : input.choices.length = 0
  · simp [h]
  · simp [h, pyIntNat_pyStr]

theorem rank_increases_of_reaches {es : List (NodeId × NodeId)}
    (hes : ∀ e ∈ es, nodeRank e.1 < nodeRank e.2) :
    ∀ {a b : NodeId}, Reaches es a b → nodeRank a < nodeRank b := by
  intro a b h
  induction h with
  | single hmem => exact hes _ hmem
  | step hmem _ ih => exact lt_trans (hes _ hmem) ih

/-! ## Definitions taken from the words of the claims (for refinement) -/

/-- The claimed-by-the-spec rendering of one exemplar: question,
enumerated choices, correct answer. -/
def exampleBlockSpec (i : Nat) (ex : Exemplar) : String :=
  "Example " ++ pyStr i ++ "\n" ++ ex.question ++ "\n" ++
    String.join (ex.choices.enum.map (fun p => pyStr p.1 ++ " : " ++ p.2 ++ "\n")) ++
    "Correct Answer: " ++ pyStr ex.correct_answer

/-- The claimed system block: the fixed instruction preamble, then — when
the pool is non-empty — the examples header and all exemplar blocks in
pool order. -/
def systemTextSpec (common : Option (List Exemplar)) : String :=
  instructionPreamble ++
    (if pyTruthy common then
      "Here are some examples to help you:\n\n" ++
        String.join ((commonList common).enum.map (fun p => exampleBlockSpec p.1 p.2))
    else "")

/-- The amended reading of the user block: the target question, then each
enumerated choice followed immediately by the answer cue, so the cue
appears once per choice. -/
def userTextAmended (question : String) (choices : List String) : String :=
  question ++ "\n" ++
    String.join (choices.enum.map
      (fun p => pyStr p.1 ++ " : " ++ p.2 ++ "\n" ++ "Correct Answer: "))

/-- The user block as the claim literally states it: the target question,
the full enumerated choice list, and the answer cue exactly once after the
full list. -/
def userTextClaimed (question : String) (choices : List String) : String :=
  question ++ "\n" ++
    String.join (choices.enum.map (fun p => pyStr p.1 ++ " : " ++ p.2 ++ "\n")) ++
    "Correct Answer: "

/-- The data-flow edges the claim describes: fetch feeds both splits, the
few-shot split feeds the converter, generation consumes the evaluation
split and the converter output, scoring consumes generation. -/
def claimedFlowEdges : List (NodeId × NodeId) :=
  [(.fetch, .extractSplit), (.fetch, .extractFewshotSplit),
   (.extractFewshotSplit, .convertJson), (.extractSplit, .guidance),
   (.convertJson, .guidance), (.guidance, .score)]

theorem exampleBlock_eq_spec (i : Nat) (ex : Exemplar) :
    exampleBlock i ex = exampleBlockSpec i ex := by
  unfold exampleBlock exampleBlockSpec
  rw [foldl_append_eq_join (fun p : Nat × String => pyStr p.1 ++ " : " ++ p.2 ++ "\n")]
  simp [String.append_assoc]

theorem systemText_eq_spec (common : Option (List Exemplar)) :
    systemText common = systemTextSpec common := by
  unfold systemText systemTextSpec
  by_cases h : pyTruthy common
  · rw [if_pos h, if_pos h,
      foldl_append_eq_join (fun p : Nat × Exemplar => exampleBlock p.1 p.2)]
    simp [exampleBlock_eq_spec]
  · rw [if_neg h, if_neg h]

theorem userText_eq_amended (question : String) (choices : List String) :
    userText question choices = userTextAmended question choices := by
  unfold userText userTextAmended
  have h : (fun (acc : String) (p : Nat × String) =>
      acc ++ (pyStr p.1 ++ " : " ++ p.2 ++ "\n") ++ "Correct Answer: ") =
      (fun (acc : String) (p : Nat × String) =>
        acc ++ (pyStr p.1 ++ " : " ++ p.2 ++ "\n" ++ "Correct Answer: ")) := by
    funext acc p
    simp [String.append_assoc]
  rw [h, foldl_append_eq_join (fun p : Nat × String => pyStr p.1 ++ " : " ++ p.2 ++ "\n" ++ "Correct Answer: ")]

/-! ## Sample values used by witnesses -/

/-- A concrete Azure OpenAI sub-configuration. -/
def sampleAOAI : AOAIConfig where
  endpoint := "https://aoai.example"
  model := "gpt-4"
  compute_target := "aoai-compute"

/-- A concrete naming and tagging sub-configuration. -/
def samplePipelineSettings : PipelineSettings where
  base_experiment_name := "fewshot"
  default_compute_target := "cpu-cluster"
  tags := [("team", "eval")]

/-- A concrete run configuration. -/
def sampleConfig : FewShotConfig where
  guidance_program := "zero_shot.py"
  mmlu_dataset := "anatomy"
  mmlu_split := "test"
  fewshot_split := "dev"
  guidance_workers := 4
  max_errors := 2
  aoai_config := sampleAOAI
  pipeline := samplePipelineSettings
  tags := [("run", "demo")]

/-- A run configuration whose `pipeline.tags` is empty while its top-level
`tags` is not. -/
def sampleConfigNoPipelineTags : FewShotConfig :=
  { sampleConfig with
      pipeline := { samplePipelineSettings with tags := [] } }

/-! ## Behaviour of the modelled generation stage -/

theorem countFailures_cons_some {α : Type} (v : α) (rest : List (Option α)) :
    countFailures (some v :: rest) = countFailures rest := by
  simp [countFailures, List.countP_cons]

theorem countFailures_cons_none {α : Type} (rest : List (Option α)) :
    countFailures (none :: rest) = countFailures rest + 1 := by
  simp [countFailures, List.countP_cons]

theorem runGuidanceStage_spec {α : Type} :
    ∀ (calls : List (Option α)) (max_errors errCount : Nat), errCount < max_errors →
      (max_errors ≤ errCount + countFailures calls →
        runGuidanceStage max_errors calls errCount = .error .errorBudgetExceeded) ∧
      (errCount + countFailures calls < max_errors →
        runGuidanceStage max_errors calls errCount = .ok (calls.map markOutcome)) := by
  intro calls
  induction calls with
  | nil =>
    intro me ec hlt
    constructor
    · intro h
      simp [countFailures] at h
      omega
    · intro _
      simp [runGuidanceStage]
  | cons o rest ih =>
    intro me ec hlt
    cases o with
    | some v =>
      rw [countFailures_cons_some]
      constructor
      · intro h
        simp [runGuidanceStage, (ih me ec hlt).1 h, Except.map]
      · intro h
        simp [runGuidanceStage, (ih me ec hlt).2 h, markOutcome, Except.map]
    | none =>
      rw [countFailures_cons_none]
      constructor
      · intro h
        by_cases hc : me ≤ ec + 1
        · simp [runGuidanceStage, hc]
        · have hlt2 : ec + 1 < me := by omega
          have h2 : me ≤ (ec + 1) + countFailures rest := by omega
          simp [runGuidanceStage, hc, (ih me (ec + 1) hlt2).1 h2, Except.map]
      · intro h
        have hc : ¬ me ≤ ec + 1 := by omega
        have hlt2 : ec + 1 < me := by omega
        have h2 : (ec + 1) + countFailures rest < me := by omega
        simp [runGuidanceStage, hc, (ih me (ec + 1) hlt2).2 h2, markOutcome, Except.map]

/-! ## Claims -/

/-- C1: the claim says the generation stage records each selected choice
under the same field name the scorer reads as its response key. In the
code the guidance program records under "zeroshot_choice" while the
assembler passes response_key = "zero_or_few_shot_choice" to the scorer:
every successful generation result carries exactly the key
"zeroshot_choice", and the scorer response key is not among its keys, so
the scorer never sees the generated choice. -/
theorem guidance_key_never_matches_score_response_key
    (run_config : FewShotConfig) (input : MCInput) (common : Option (List Exemplar))
    (modelPick : Nat) (r : List (String × Nat))
    (h : guidance_generation input common modelPick = .ok r) :
    r.map Prod.fst = [zeroshot_choice_key] ∧
    (basic_pipeline run_config).score_job.response_key ∉ r.map Prod.fst := by
  rw [guidance_generation_eq] at h
  by_cases hc : input.choices.length = 0
  · simp [hc] at h
  · rw [if_neg hc] at h
    have hr : r = [(zeroshot_choice_key, modelPick % input.choices.length)] :=
      (Except.ok.inj h).symm
    subst hr
    refine ⟨rfl, ?_⟩
    simp [basic_pipeline, zeroshot_choice_key]

/-- C1 witness: a concrete successful generation on a two-choice record,
evaluated against the concrete run configuration. -/
theorem guidance_key_mismatch_witness :
    ([("zeroshot_choice", 0)] : List (String × Nat)).map Prod.fst = [zeroshot_choice_key] ∧
    (basic_pipeline sampleConfig).score_job.response_key ∉
      ([("zeroshot_choice", 0)] : List (String × Nat)).map Prod.fst :=
  guidance_key_never_matches_score_response_key sampleConfig
    ⟨"Q", ["a", "b"]⟩ none 0 [("zeroshot_choice", 0)] rfl

/-- C2: the claim says every structurally valid configuration is
assembled and submitted without error. In the code `main` reads
`config.zeroshot_config`, an attribute `PipelineConfig` does not declare,
so every run — however valid its configuration — stops with a
configuration attribute error before submission. -/
theorem main_fn_always_config_error (config : PipelineConfig) (now_ms : Nat)
    (initial_tags : List (String × String)) :
    main_fn config now_ms initial_tags =
      .error (.configAttributeError "zeroshot_config") := rfl

/-- C3: every non-failure result of `guidance_generation` on a record with
K choices is the integer value of a token drawn from the constrained set
of digit strings for 0..K-1, hence lies in [0, K-1] (values are `Nat`, so
the lower bound is inherent). -/
theorem generation_result_in_range (input : MCInput) (common : Option (List Exemplar))
    (modelPick : Nat) (r : List (String × Nat))
    (h : guidance_generation input common modelPick = .ok r) :
    ∃ v : Nat, r = [(zeroshot_choice_key, v)] ∧ v < input.choices.length := by
  rw [guidance_generation_eq] at h
  by_cases hc : input.choices.length = 0
  · simp [hc] at h
  · rw [if_neg hc] at h
    exact ⟨modelPick % input.choices.length, (Except.ok.inj h).symm,
      Nat.mod_lt _ (by omega)⟩

/-- C3 witness: a two-choice record with the model picking token "1". -/
theorem generation_result_in_range_witness :
    ∃ v : Nat, ([(zeroshot_choice_key, 1)] : List (String × Nat)) =
        [(zeroshot_choice_key, v)] ∧ v < (["a", "b"] : List String).length :=
  generation_result_in_range ⟨"Q", ["a", "b"]⟩ none 1 [(zeroshot_choice_key, 1)] rfl

/-- C4 counterexample: on a concrete two-choice question the user block
the code builds differs from the block the claim describes, in which the
answer cue appears exactly once after the full choice list — in the built
block the cue follows every choice. -/
theorem answer_cue_once_refuted :
    userText "Q" ["a", "b"] ≠ userTextClaimed "Q" ["a", "b"] := by decide

/-- C4 (amended): the prompt consists of (a) the fixed instruction
preamble, (b) when the pool is non-empty, all exemplars rendered as
question, enumerated choices, correct-answer blocks in pool order, and
(c) the target question followed by its enumerated choices with the
answer cue appended after every choice (appearing once per choice), the
last occurrence standing after the final choice. -/
theorem prompt_structure_amended (question : String) (choices : List String)
    (common : Option (List Exemplar)) :
    zero_shot_prompt question choices common =
      [(Role.systemRole, systemTextSpec common),
       (Role.userRole, userTextAmended question choices)] := by
  simp [zero_shot_prompt, systemText_eq_spec, userText_eq_amended]

/-- C5: for every run configuration the dependency edges of the assembled
graph are exactly the claimed data flow — fetch feeds both splits, the
few-shot split feeds the converter, generation consumes the evaluation
split and the converter output, scoring consumes generation — and the
graph is acyclic: no node reaches itself along dependency edges. -/
theorem pipeline_dag_edges_and_acyclic (run_config : FewShotConfig) :
    depEdges (basic_pipeline run_config) = claimedFlowEdges ∧
    ∀ n : NodeId, ¬ Reaches (depEdges (basic_pipeline run_config)) n n := by
  have hedges : depEdges (basic_pipeline run_config) = claimedFlowEdges := rfl
  refine ⟨hedges, ?_⟩
  intro n hn
  have hrank : ∀ e ∈ claimedFlowEdges, nodeRank e.1 < nodeRank e.2 := by decide
  rw [hedges] at hn
  exact absurd (rank_increases_of_reaches hrank hn) (lt_irrefl _)

/-- C6: with an exemplar pool of size 0 — `common` either `None` or the
empty list — the guidance program still builds a well-formed prompt whose
system block is just the instruction preamble (the examples block is
omitted), and on a non-empty choice list the constrained generation
succeeds with an in-range answer; no error arises from the empty pool. -/
theorem zero_shot_empty_pool_ok (question : String) (choices : List String)
    (common : Option (List Exemplar)) (modelPick : Nat)
    (hpool : common = none ∨ common = some [])
    (hchoices : choices ≠ []) :
    systemText common = instructionPreamble ∧
    zero_shot_prompt question choices common =
      [(Role.systemRole, instructionPreamble),
       (Role.userRole, userText question choices)] ∧
    ∃ v : Nat, guidance_generation ⟨question, choices⟩ common modelPick =
        .ok [(zeroshot_choice_key, v)] ∧ v < choices.length := by
  have hsys : systemText common = instructionPreamble := by
    rcases hpool with h | h <;> subst h <;> simp [systemText, pyTruthy]
  have hlen : choices.length ≠ 0 := by
    simpa [List.length_eq_zero] using hchoices
  refine ⟨hsys, by simp [zero_shot_prompt, hsys], ?_⟩
  refine ⟨modelPick % choices.length, ?_, Nat.mod_lt _ (by omega)⟩
  rw [guidance_generation_eq]
  simp [hlen]

/-- C6 witness: pool `None`, a concrete two-choice question. -/
theorem zero_shot_empty_pool_ok_witness :
    systemText none = instructionPreamble ∧
    zero_shot_prompt "Q" ["a", "b"] none =
      [(Role.systemRole, instructionPreamble),
       (Role.userRole, userText "Q" ["a", "b"])] ∧
    ∃ v : Nat, guidance_generation ⟨"Q", ["a", "b"]⟩ none 3 =
        .ok [(zeroshot_choice_key, v)] ∧ v < (["a", "b"] : List String).length :=
  zero_shot_empty_pool_ok "Q" ["a", "b"] none 3 (Or.inl rfl) (by decide)

/-- C7 counterexample: two distinct submission instants falling in the
same wall-clock second — 100 ms and 900 ms after the epoch — receive the
same version string, so the token is not unique per submission. -/
theorem version_string_collision :
    (100 : Nat) ≠ 900 ∧ version_string_of 100 = version_string_of 900 := by decide

/-- C7 (amended): the version strings of two submissions are equal exactly
when the submissions fall in the same whole second of wall-clock time;
distinctness is guaranteed only for submissions whose truncated-to-seconds
timestamps differ, not for concurrent same-second submissions. -/
theorem version_string_eq_iff_same_second (t₁ t₂ : Nat) :
    version_string_of t₁ = version_string_of t₂ ↔ t₁ / 1000 = t₂ / 1000 := by
  constructor
  · intro h
    exact pyStr_injective h
  · intro h
    unfold version_string_of
    rw [h]

/-- C8: the assembler forwards `run_config.max_errors` to the generation
stage; the stage (modelled from the spec) terminates with
`ErrorBudgetExceeded` and emits no success result as soon as the running
failure count reaches that budget, and otherwise records failed records as
explicit failure markers and keeps the output parallel to the input. -/
theorem guidance_stage_error_budget (run_config : FewShotConfig)
    (calls : List (Option Nat)) (hpos : 1 ≤ run_config.max_errors) :
    (basic_pipeline run_config).fewshot_guidance_job.max_errors = run_config.max_errors ∧
    (run_config.max_errors ≤ countFailures calls →
      runGuidanceStage run_config.max_errors calls 0 = .error .errorBudgetExceeded) ∧
    (countFailures calls < run_config.max_errors →
      runGuidanceStage run_config.max_errors calls 0 = .ok (calls.map markOutcome) ∧
      (calls.map markOutcome).length = calls.length) := by
  have h := runGuidanceStage_spec calls run_config.max_errors 0 (by omega)
  exact ⟨rfl, fun hge => h.1 (by omega),
    fun hlt => ⟨h.2 (by omega), by simp⟩⟩

/-- C8 witness: with budget 2 and one failed call out of three, the stage
succeeds and marks the failed record. -/
theorem guidance_stage_error_budget_witness :
    runGuidanceStage 2 [some 1, none, some 0] 0 =
      .ok [.success 1, .failureMarker, .success 0] :=
  ((guidance_stage_error_budget sampleConfig [some 1, none, some 0]
      (by decide)).2.2 (by decide)).1

/-- C9: when the choice list of the input record is empty, the allowed
token set handed to the constrained-generation primitive is empty, so no
valid answer token exists and `guidance_generation` cannot return a
result: it fails with no-valid-token. -/
theorem empty_choices_no_valid_token (input : MCInput)
    (common : Option (List Exemplar)) (modelPick : Nat)
    (h : input.choices = []) :
    selectTokens input.choices = [] ∧
    guidance_generation input common modelPick = .error .noValidToken := by
  constructor
  · simp [selectTokens, h]
  · rw [guidance_generation_eq]
    simp [h]

/-- C9 witness: a concrete record with an empty choice list. -/
theorem empty_choices_no_valid_token_witness :
    selectTokens (MCInput.mk "Q" []).choices = [] ∧
    guidance_generation ⟨"Q", []⟩ none 0 = .error .noValidToken :=
  empty_choices_no_valid_token ⟨"Q", []⟩ none 0 rfl

/-- C10: `create_fewshot_pipeline` updates the entity tags from
`run_config.tags` exactly when `run_config.pipeline.tags` is truthy; when
`run_config.pipeline.tags` is empty the tags stay unchanged, even if
`run_config.tags` is non-empty. -/
theorem tags_guard_behavior (run_config : FewShotConfig) (version_string : String)
    (initial_tags : List (String × String)) :
    (run_config.pipeline.tags = [] →
      (create_fewshot_pipeline run_config version_string initial_tags).tags =
        initial_tags) ∧
    (run_config.pipeline.tags ≠ [] →
      (create_fewshot_pipeline run_config version_string initial_tags).tags =
        dictUpdate initial_tags run_config.tags) := by
  constructor
  · intro h
    simp [create_fewshot_pipeline, h]
  · intro h
    have hfalse : run_config.pipeline.tags.isEmpty = false := by
      simpa [List.isEmpty_iff] using h
    simp [create_fewshot_pipeline, hfalse]

/-- C10 witness: a configuration with empty `pipeline.tags` but non-empty
top-level `tags` leaves the entity tags unchanged. -/
theorem tags_guard_behavior_witness :
    (create_fewshot_pipeline sampleConfigNoPipelineTags "1700000000"
      [("sys", "aml")]).tags = [("sys", "aml")] :=
  (tags_guard_behavior sampleConfigNoPipelineTags "1700000000" [("sys", "aml")]).1 rfl
